import Mathlib

/-!
Verification of the exception-safety call protocol of the `jni-rs` crate
(`crates/jni/src/macros.rs` and `crates/jni/src/exceptions.rs`).

The JNI environment is modelled as explicit state: a pending-exception flag,
the throwable object retrievable via `ExceptionOccurred`, and a counter of
invocations of the underlying function-pointer table.  Each call-wrapper macro
becomes a state-passing function; the raw JNI function being wrapped is a
parameter (`JniFn`) transforming the exception state and producing a raw
return value.  The exception matcher chain built by `__jni_match_exceptions!`
becomes an explicit list of typed entries plus an optional default handler,
with macro expansion modelled as a function that rejects (returns `none`,
standing for `compile_error!`) any chain lacking the default.
-/

set_option autoImplicit false

namespace Jni

/-- Identifier of a Java class, used for is-instance-of tests. -/
abbrev ClassName := String

/-- A Java throwable object, modelled by the set of classes it is an
instance of (`is_instance_of_class` tests membership). -/
structure ThrowableObj where
  instanceOf : List ClassName
  deriving Repr, DecidableEq

/-- A `JThrowable` reference: either null or a reference to an object. -/
inductive JThrowable where
  | null : JThrowable
  | obj : ThrowableObj → JThrowable
  deriving Repr, DecidableEq

/-- Mirrors `JObjectRef::is_null()` on a throwable reference. -/
def JThrowable.is_null : JThrowable → Bool
  | .null => true
  | .obj _ => false

/-- The error kinds of `crate::errors::Error` relevant to the call protocol:
`JavaException` (pending/uncaught exception signal) and `NullPtr` with its
diagnostic label. -/
inductive Error where
  | JavaException : Error
  | NullPtr : String → Error
  deriving Repr, DecidableEq

/-- The runtime-side exception state: the `ExceptionCheck` flag and the
throwable returned by `ExceptionOccurred`.  A contract-respecting runtime
keeps the two consistent (`pending = thrown.isSome`), but the state type does
not force this, so that the defensive `expect` branch of the wrappers can be
examined. -/
structure ExcState where
  pending : Bool
  thrown : Option ThrowableObj
  deriving Repr, DecidableEq

/-- The observable state of a thread's JNI environment: its exception state
plus a counter of invocations of the underlying function-pointer table. -/
structure EnvState where
  exc : ExcState
  tableCalls : Nat
  deriving Repr, DecidableEq

/-- Modelled from the spec: `Env::exception_check` (JNI `ExceptionCheck`)
queries the live pending-exception flag.  Its body is not under `src/`. -/
def exception_check (s : EnvState) : Bool :=
  s.exc.pending

/-- Modelled from the spec: `Env::exception_occurred` (JNI
`ExceptionOccurred`) retrieves the pending throwable, or nothing when no
exception is pending.  Its body is not under `src/`. -/
def exception_occurred (s : EnvState) : Option ThrowableObj :=
  s.exc.thrown

/-- Modelled from the spec: `Env::exception_clear` (JNI `ExceptionClear`)
clears the pending-exception state. -/
def exception_clear (s : EnvState) : EnvState :=
  { s with exc := ⟨false, none⟩ }

/-- A raw JNI function-table entry (a call descriptor together with the
behaviour of the selected slot): reads and may modify the exception state
(for example by throwing), and produces a raw return value. -/
structure JniFn (α : Type) where
  run : ExcState → α × ExcState

/-- `ex_safe_jni_call_no_post_check_ex!`: dereferences the function table and
invokes the slot, nothing else.  Each invocation of the table is counted in
`tableCalls`. -/
def ex_safe_jni_call_no_post_check_ex {α : Type} (f : JniFn α) (s : EnvState) :
    α × EnvState :=
  ((f.run s.exc).1, ⟨(f.run s.exc).2, s.tableCalls + 1⟩)

/-- `jni_call_no_post_check_ex!`: pre-checks for a pending exception and
returns `Err(Error::JavaException)` without touching the table if one is
found; otherwise dereferences the table and wraps the raw result in `Ok`. -/
def jni_call_no_post_check_ex {α : Type} (f : JniFn α) (s : EnvState) :
    Except Error α × EnvState :=
  if exception_check s then
    (Except.error Error.JavaException, s)
  else
    (Except.ok (f.run s.exc).1, ⟨(f.run s.exc).2, s.tableCalls + 1⟩)

/-- `jni_call_post_check_ex!`: delegates to `jni_call_no_post_check_ex!` and
then re-checks for a pending exception (`and_then`), returning
`Err(Error::JavaException)` if the call raised one; the exception is not
cleared. -/
def jni_call_post_check_ex {α : Type} (f : JniFn α) (s : EnvState) :
    Except Error α × EnvState :=
  match jni_call_no_post_check_ex f s with
  | (Except.error e, s₁) => (Except.error e, s₁)
  | (Except.ok ret, s₁) =>
    if exception_check s₁ then
      (Except.error Error.JavaException, s₁)
    else
      (Except.ok ret, s₁)

/-- `jni_call_post_check_ex_and_null_ret!`: delegates to
`jni_call_post_check_ex!` and additionally rejects a null raw result with
`Err(Error::NullPtr(concat!(stringify!(name), " result")))`.  Nullity of the
raw return type is supplied as the predicate `isNull`, and `name` is the
stringified JNI function name. -/
def jni_call_post_check_ex_and_null_ret {α : Type} (isNull : α → Bool)
    (name : String) (f : JniFn α) (s : EnvState) : Except Error α × EnvState :=
  match jni_call_post_check_ex f s with
  | (Except.error e, s₁) => (Except.error e, s₁)
  | (Except.ok ret, s₁) =>
    if isNull ret then
      (Except.error (Error.NullPtr (name ++ " result")), s₁)
    else
      (Except.ok ret, s₁)

/-- An exception type binding (one `bind_exception!` instantiation),
identified by its Java class. -/
structure ExcType where
  className : ClassName
  deriving Repr, DecidableEq

/-- A `Cast` of a throwable to a matched exception type
(`Cast::new_unchecked`, taken only after the is-instance-of test succeeds). -/
structure Cast where
  ty : ExcType
  obj : ThrowableObj
  deriving Repr, DecidableEq

/-- The generated `matches` method of a bound exception type
(`crates/jni/src/exceptions.rs`): a null throwable is rejected with
`Err(Error::NullPtr("Invalid null Throwable"))` before any class lookup or
instance-of query; otherwise the result is `Ok(Some(cast))` exactly when the
is-instance-of test succeeds and `Ok(None)` otherwise.  The second component
counts the is-instance-of queries performed against the runtime. -/
def ExcType.matches (ty : ExcType) (env : EnvState) (throwable : JThrowable) :
    Except Error (Option Cast) × Nat :=
  match throwable with
  | JThrowable.null => (Except.error (Error.NullPtr "Invalid null Throwable"), 0)
  | JThrowable.obj o =>
    if ty.className ∈ o.instanceOf then
      (Except.ok (some ⟨ty, o⟩), 1)
    else
      (Except.ok none, 1)

/-- One typed entry `ExType => expr` of a `catch {}` block.  The handler has
access to the `Cast` exception and the `env` reference provided by the
`with_local_frame` closure. -/
structure Entry (α : Type) where
  ty : ExcType
  handler : Cast → EnvState → Except Error α

/-- The syntactic content of a `catch {}` block handed to
`__jni_match_exceptions!`: the typed entries in declared order, and the
terminal `else => expr` handler when present. -/
structure CatchBlock (α : Type) where
  entries : List (Entry α)
  dflt : Option (EnvState → Except Error α)

/-- The run-time dispatch produced by `__jni_match_exceptions!` for a chain
terminated by `else`: each entry's `matches` test is evaluated in order (its
`Err` propagating via `?`), the first entry whose test returns `Some` has its
handler applied to the cast exception, and an exhausted chain falls through
to the default handler. -/
def runChain {α : Type} (entries : List (Entry α))
    (dflt : EnvState → Except Error α) (env : EnvState) (ex : JThrowable) :
    Except Error α :=
  match entries with
  | [] => dflt env
  | e :: rest =>
    match (ExcType.matches e.ty env ex).1 with
    | Except.error err => Except.error err
    | Except.ok (some c) => e.handler c env
    | Except.ok none => runChain rest dflt env ex

/-- Macro expansion of `__jni_match_exceptions!`: a chain without the
mandatory terminal `else` handler hits a `compile_error!` arm (modelled as
`none`); a chain with it expands to the run-time dispatch `runChain`. -/
def expandMatch {α : Type} (cb : CatchBlock α) :
    Option (EnvState → JThrowable → Except Error α) :=
  match cb.dflt with
  | none => none
  | some d => some (fun env ex => runChain cb.entries d env ex)

/-- The outcome of a wrapper that may also abort the process: `ok`/`err`
reflect the `Result` value, `fatal` models the `expect` panic taken when
pending-exception state and exception retrieval disagree. -/
inductive Outcome (α : Type) where
  | ok : α → Outcome α
  | err : Error → Outcome α
  | fatal : String → Outcome α

/-- Lifts the `Result` value produced by the matcher or by the try block into
an `Outcome`. -/
def toOutcome {α : Type} : Except Error α → Outcome α
  | Except.ok a => Outcome.ok a
  | Except.error e => Outcome.err e

/-- `jni_call_with_catch!`: performs `jni_call_no_post_check_ex!`, propagating
its `Err` via `?`; then, if an exception is now pending, retrieves it
(`exception_occurred().expect(..)`, a fatal assertion when retrieval yields
nothing), clears it, and runs the matcher chain inside a `with_local_frame`
closure against the cleared environment; otherwise returns the raw result. -/
def jni_call_with_catch {α : Type} (entries : List (Entry α))
    (dflt : EnvState → Except Error α) (f : JniFn α) (s : EnvState) :
    Outcome α × EnvState :=
  match jni_call_no_post_check_ex f s with
  | (Except.error e, s₁) => (Outcome.err e, s₁)
  | (Except.ok ret, s₁) =>
    if exception_check s₁ then
      match exception_occurred s₁ with
      | none => (Outcome.fatal "Expected an exception after ExceptionCheck", s₁)
      | some t =>
        let s₂ := exception_clear s₁
        (toOutcome (runChain entries dflt s₂ (JThrowable.obj t)), s₂)
    else
      (Outcome.ok ret, s₁)

/-- `jni_try!`: runs the caller-supplied block (itself an arbitrary state
transformer returning a `Result`), then, if an exception is pending,
discards the block's value and applies the same retrieve/clear/match sequence
as `jni_call_with_catch!`; otherwise the block's value is returned
unchanged. -/
def jni_try {α : Type} (block : EnvState → Except Error α × EnvState)
    (entries : List (Entry α)) (dflt : EnvState → Except Error α)
    (s : EnvState) : Outcome α × EnvState :=
  let r := block s
  if exception_check r.2 then
    match exception_occurred r.2 with
    | none => (Outcome.fatal "Expected an exception after ExceptionCheck", r.2)
    | some t =>
      let s₂ := exception_clear r.2
      (toOutcome (runChain entries dflt s₂ (JThrowable.obj t)), s₂)
  else
    (toOutcome r.1, r.2)

/-! Helper lemmas about the matcher chain dispatch. -/

/-- A chain entry whose is-instance-of test succeeds selects its handler. -/
theorem runChain_cons_match {α : Type} (e : Entry α) (rest : List (Entry α))
    (dflt : EnvState → Except Error α) (env : EnvState) (o : ThrowableObj)
    (hm : e.ty.className ∈ o.instanceOf) :
    runChain (e :: rest) dflt env (JThrowable.obj o) = e.handler ⟨e.ty, o⟩ env := by
  simp [runChain, ExcType.matches, hm]

/-- A chain entry whose is-instance-of test fails is skipped. -/
theorem runChain_cons_no_match {α : Type} (e : Entry α) (rest : List (Entry α))
    (dflt : EnvState → Except Error α) (env : EnvState) (o : ThrowableObj)
    (hm : e.ty.className ∉ o.instanceOf) :
    runChain (e :: rest) dflt env (JThrowable.obj o)
      = runChain rest dflt env (JThrowable.obj o) := by
  simp [runChain, ExcType.matches, hm]

/-- A prefix of entries none of which matches the exception is skipped
entirely. -/
theorem runChain_prefix_no_match {α : Type} (es₁ es₂ : List (Entry α))
    (dflt : EnvState → Except Error α) (env : EnvState) (o : ThrowableObj)
    (h : ∀ e ∈ es₁, e.ty.className ∉ o.instanceOf) :
    runChain (es₁ ++ es₂) dflt env (JThrowable.obj o)
      = runChain es₂ dflt env (JThrowable.obj o) := by
  induction es₁ with
  | nil => rfl
  | cons e es ih =>
    rw [List.cons_append, runChain_cons_no_match e (es ++ es₂) dflt env o
      (h e (List.mem_cons_self e es))]
    exact ih (fun e' he' => h e' (List.mem_cons_of_mem e he'))

/-- A chain none of whose entries matches falls through to the default. -/
theorem runChain_all_no_match {α : Type} (es : List (Entry α))
    (dflt : EnvState → Except Error α) (env : EnvState) (o : ThrowableObj)
    (h : ∀ e ∈ es, e.ty.className ∉ o.instanceOf) :
    runChain es dflt env (JThrowable.obj o) = dflt env := by
  have := runChain_prefix_no_match es [] dflt env o h
  rwa [List.append_nil] at this

/-! Concrete fixtures used by the witness theorems. -/

/-- A bound exception type with class `A`. -/
def tyA : ExcType := ⟨"A"⟩

/-- A bound exception type with class `B`. -/
def tyB : ExcType := ⟨"B"⟩

/-- A bound exception type with class `C`. -/
def tyC : ExcType := ⟨"C"⟩

/-- A throwable that is an instance of both `A` and `B`. -/
def oAB : ThrowableObj := ⟨["A", "B"]⟩

/-- An environment with no pending exception and no table calls yet. -/
def sClean : EnvState := ⟨⟨false, none⟩, 0⟩

/-- An environment with a pending exception. -/
def sPend : EnvState := ⟨⟨true, some oAB⟩, 0⟩

/-- A raw JNI function that returns 7 and does not throw. -/
def fPure : JniFn Nat := ⟨fun e => (7, e)⟩

/-- A raw JNI function that returns 7 and throws an `A`-and-`B` exception. -/
def fThrow : JniFn Nat := ⟨fun _ => (7, ⟨true, some oAB⟩)⟩

/-- A raw JNI function violating the runtime contract: it sets the pending
flag while leaving nothing retrievable. -/
def fBad : JniFn Nat := ⟨fun _ => (7, ⟨true, none⟩)⟩

/-- A raw JNI function that returns 0 (a null value) and does not throw. -/
def fNull : JniFn Nat := ⟨fun e => (0, e)⟩

/-- Nullity predicate for raw `Nat` results: 0 stands for the null pointer. -/
def natIsNull (n : Nat) : Bool := n == 0

/-- Handler for `tyA` returning the value X = 1. -/
def hX : Cast → EnvState → Except Error Nat := fun _ _ => Except.ok 1

/-- Handler for `tyB` returning the value Y = 2. -/
def hY : Cast → EnvState → Except Error Nat := fun _ _ => Except.ok 2

/-- Default handler returning the value Z = 3. -/
def hZ : EnvState → Except Error Nat := fun _ => Except.ok 3

/-- A try block that returns `Ok 9` and leaves a pending exception behind. -/
def blockThrow : EnvState → Except Error Nat × EnvState :=
  fun s => (Except.ok 9, ⟨⟨true, some oAB⟩, s.tableCalls + 2⟩)

/-- A try block that returns `Ok 9` and leaves the state untouched. -/
def blockPure : EnvState → Except Error Nat × EnvState :=
  fun s => (Except.ok 9, s)

/-! Claim theorems. -/

/-- C1: for an operation invoked through `jni_call_no_post_check_ex!`, if an
exception is pending at entry the wrapper returns `Err(Error::JavaException)`
and performs zero invocations of the underlying function table (the state,
including the table-call counter, is untouched); if no exception is pending
it delegates to the raw primitive and wraps its result in `Ok`. -/
theorem jni_call_no_post_check_ex_precheck {α : Type} (f : JniFn α) (s : EnvState) :
    (exception_check s = true →
      jni_call_no_post_check_ex f s = (Except.error Error.JavaException, s)
      ∧ (jni_call_no_post_check_ex f s).2.tableCalls = s.tableCalls)
    ∧ (exception_check s = false →
      jni_call_no_post_check_ex f s =
        (Except.ok (ex_safe_jni_call_no_post_check_ex f s).1,
         (ex_safe_jni_call_no_post_check_ex f s).2)) := by
  constructor
  · intro h
    simp [jni_call_no_post_check_ex, h]
  · intro h
    simp [jni_call_no_post_check_ex, ex_safe_jni_call_no_post_check_ex, h]

/-- Witness for C1: the precheck rejection at a pending state and the
delegation at a clean state, at concrete inputs. -/
theorem jni_call_no_post_check_ex_precheck_witness :
    (exception_check sPend = true
      ∧ jni_call_no_post_check_ex fPure sPend = (Except.error Error.JavaException, sPend))
    ∧ (exception_check sClean = false
      ∧ jni_call_no_post_check_ex fPure sClean =
          (Except.ok (ex_safe_jni_call_no_post_check_ex fPure sClean).1,
           (ex_safe_jni_call_no_post_check_ex fPure sClean).2)) :=
  ⟨⟨rfl, ((jni_call_no_post_check_ex_precheck fPure sPend).1 rfl).1⟩,
   ⟨rfl, (jni_call_no_post_check_ex_precheck fPure sClean).2 rfl⟩⟩

/-- C7: a non-allow-listed operation called through `jni_call_post_check_ex!`
with no pending exception at entry that internally raises an exception makes
the wrapper report `Err(Error::JavaException)`, and the exception is left
uncleared: pending-exception state is still true after the wrapper returns. -/
theorem jni_call_post_check_ex_uncaught {α : Type} (f : JniFn α) (s : EnvState)
    (h0 : exception_check s = false)
    (hthrow : (f.run s.exc).2.pending = true) :
    (jni_call_post_check_ex f s).1 = Except.error Error.JavaException
    ∧ (jni_call_post_check_ex f s).2.exc = (f.run s.exc).2
    ∧ exception_check (jni_call_post_check_ex f s).2 = true := by
  have h0' : s.exc.pending = false := h0
  simp [jni_call_post_check_ex, jni_call_no_post_check_ex, exception_check,
    h0', hthrow]

/-- Witness for C7 at a concrete throwing call. -/
theorem jni_call_post_check_ex_uncaught_witness :
    exception_check sClean = false
    ∧ (fThrow.run sClean.exc).2.pending = true
    ∧ (jni_call_post_check_ex fThrow sClean).1 = Except.error Error.JavaException
    ∧ exception_check (jni_call_post_check_ex fThrow sClean).2 = true :=
  ⟨rfl, rfl,
    (jni_call_post_check_ex_uncaught fThrow sClean rfl rfl).1,
    (jni_call_post_check_ex_uncaught fThrow sClean rfl rfl).2.2⟩

/-- C8: a call through `jni_call_post_check_ex!` that succeeds without
inducing an exception returns exactly what the raw primitive
`ex_safe_jni_call_no_post_check_ex!` would have returned for the same call
descriptor, and pending-exception state remains false afterwards. -/
theorem jni_call_post_check_ex_success {α : Type} (f : JniFn α) (s : EnvState)
    (h0 : exception_check s = false)
    (hok : (f.run s.exc).2.pending = false) :
    jni_call_post_check_ex f s =
      (Except.ok (ex_safe_jni_call_no_post_check_ex f s).1,
       (ex_safe_jni_call_no_post_check_ex f s).2)
    ∧ exception_check (jni_call_post_check_ex f s).2 = false := by
  have h0' : s.exc.pending = false := h0
  simp [jni_call_post_check_ex, jni_call_no_post_check_ex,
    ex_safe_jni_call_no_post_check_ex, exception_check, h0', hok]

/-- Witness for C8 at a concrete non-throwing call. -/
theorem jni_call_post_check_ex_success_witness :
    exception_check sClean = false
    ∧ (fPure.run sClean.exc).2.pending = false
    ∧ jni_call_post_check_ex fPure sClean =
        (Except.ok (ex_safe_jni_call_no_post_check_ex fPure sClean).1,
         (ex_safe_jni_call_no_post_check_ex fPure sClean).2) :=
  ⟨rfl, rfl, (jni_call_post_check_ex_success fPure sClean rfl rfl).1⟩

/-- C5: an operation whose raw result is null and that neither has nor
induces a pending exception yields, through
`jni_call_post_check_ex_and_null_ret!`, the error
`Err(Error::NullPtr(name ++ " result"))` carrying the operation's name, while
through `jni_call_post_check_ex!` the same null result is returned unchanged
as success. -/
theorem null_ret_wrapper_vs_plain {α : Type} (isNull : α → Bool) (name : String)
    (f : JniFn α) (s : EnvState)
    (h0 : exception_check s = false)
    (hok : (f.run s.exc).2.pending = false)
    (hnull : isNull (f.run s.exc).1 = true) :
    (jni_call_post_check_ex_and_null_ret isNull name f s).1
      = Except.error (Error.NullPtr (name ++ " result"))
    ∧ (jni_call_post_check_ex f s).1 = Except.ok (f.run s.exc).1 := by
  have h0' : s.exc.pending = false := h0
  simp [jni_call_post_check_ex_and_null_ret, jni_call_post_check_ex,
    jni_call_no_post_check_ex, exception_check, h0', hok, hnull]

/-- Witness for C5 at a concrete null-returning, non-throwing call. -/
theorem null_ret_wrapper_vs_plain_witness :
    exception_check sClean = false
    ∧ (fNull.run sClean.exc).2.pending = false
    ∧ natIsNull (fNull.run sClean.exc).1 = true
    ∧ (jni_call_post_check_ex_and_null_ret natIsNull "GetObjectClass" fNull sClean).1
        = Except.error (Error.NullPtr "GetObjectClass result")
    ∧ (jni_call_post_check_ex fNull sClean).1 = Except.ok (fNull.run sClean.exc).1 :=
  ⟨rfl, rfl, rfl,
    (null_ret_wrapper_vs_plain natIsNull "GetObjectClass" fNull sClean rfl rfl rfl).1,
    (null_ret_wrapper_vs_plain natIsNull "GetObjectClass" fNull sClean rfl rfl rfl).2⟩

/-- C3: the matcher chain evaluates typed entries top-to-bottom and returns
the handler result of the first entry whose is-instance-of test matches: for
the chain `[TypeA => X, TypeB => Y, else => Z]` and an exception matching
both types the result is X; when no typed entry matches the result is the
default handler's value Z; and in general the first matching entry after any
non-matching prefix is selected. -/
theorem match_exceptions_first_match_wins {α : Type} (tA tB : ExcType)
    (X Y : Cast → EnvState → Except Error α) (Z : EnvState → Except Error α)
    (env : EnvState) (o : ThrowableObj) :
    (tA.className ∈ o.instanceOf → tB.className ∈ o.instanceOf →
      runChain [⟨tA, X⟩, ⟨tB, Y⟩] Z env (JThrowable.obj o) = X ⟨tA, o⟩ env)
    ∧ (∀ es : List (Entry α), (∀ e ∈ es, e.ty.className ∉ o.instanceOf) →
        runChain es Z env (JThrowable.obj o) = Z env)
    ∧ (∀ es₁ es₂ : List (Entry α), ∀ ty : ExcType,
        ∀ hh : Cast → EnvState → Except Error α,
        (∀ e ∈ es₁, e.ty.className ∉ o.instanceOf) →
        ty.className ∈ o.instanceOf →
        runChain (es₁ ++ ⟨ty, hh⟩ :: es₂) Z env (JThrowable.obj o)
          = hh ⟨ty, o⟩ env) := by
  refine ⟨fun hA _ => runChain_cons_match ⟨tA, X⟩ _ Z env o hA,
    fun es h => runChain_all_no_match es Z env o h,
    fun es₁ es₂ ty hh hpre hm => ?_⟩
  rw [runChain_prefix_no_match es₁ (⟨ty, hh⟩ :: es₂) Z env o hpre]
  exact runChain_cons_match ⟨ty, hh⟩ es₂ Z env o hm

/-- Witness for C3: the chain `[A => 1, B => 2, else => 3]` applied to an
exception that is an instance of both `A` and `B` yields 1, and applied after
replacing the entry types by non-matching ones yields the default 3. -/
theorem match_exceptions_first_match_wins_witness :
    (tyA.className ∈ oAB.instanceOf ∧ tyB.className ∈ oAB.instanceOf
      ∧ runChain [⟨tyA, hX⟩, ⟨tyB, hY⟩] hZ sClean (JThrowable.obj oAB)
          = hX ⟨tyA, oAB⟩ sClean)
    ∧ ((∀ e ∈ [Entry.mk tyC hX], e.ty.className ∉ oAB.instanceOf)
      ∧ runChain [⟨tyC, hX⟩] hZ sClean (JThrowable.obj oAB) = hZ sClean) :=
  ⟨⟨by decide, by decide,
    (match_exceptions_first_match_wins tyA tyB hX hY hZ sClean oAB).1
      (by decide) (by decide)⟩,
   ⟨by decide,
    (match_exceptions_first_match_wins tyA tyB hX hY hZ sClean oAB).2.1
      [⟨tyC, hX⟩] (by decide)⟩⟩

/-- C4: macro expansion of an exception chain that omits the mandatory
`else` handler — the empty chain, or a chain of exactly one typed handler
with no default — hits a `compile_error!` arm (modelled as `none`), so the
malformed declaration is rejected at build time; a chain carrying the default
always expands to a total run-time dispatch, so the omission is never a
run-time condition. -/
theorem match_exceptions_requires_default {α : Type} :
    expandMatch (⟨[], none⟩ : CatchBlock α) = none
    ∧ (∀ ty : ExcType, ∀ hh : Cast → EnvState → Except Error α,
        expandMatch (⟨[⟨ty, hh⟩], none⟩ : CatchBlock α) = none)
    ∧ (∀ cb : CatchBlock α, ∀ d : EnvState → Except Error α, cb.dflt = some d →
        expandMatch cb = some (fun env ex => runChain cb.entries d env ex)) := by
  refine ⟨rfl, fun ty hh => rfl, fun cb d hd => ?_⟩
  simp [expandMatch, hd]

/-- Witness for C4: a concrete chain with the default present expands to its
run-time dispatch, and the two malformed chains are rejected. -/
theorem match_exceptions_requires_default_witness :
    expandMatch (⟨[], none⟩ : CatchBlock Nat) = none
    ∧ expandMatch (⟨[⟨tyA, hX⟩], none⟩ : CatchBlock Nat) = none
    ∧ (CatchBlock.mk [⟨tyA, hX⟩] (some hZ)).dflt = some hZ
    ∧ expandMatch (CatchBlock.mk [⟨tyA, hX⟩] (some hZ))
        = some (fun env ex => runChain [⟨tyA, hX⟩] hZ env ex) :=
  ⟨(match_exceptions_requires_default (α := Nat)).1,
   (match_exceptions_requires_default (α := Nat)).2.1 tyA hX,
   rfl,
   (match_exceptions_requires_default (α := Nat)).2.2
     (CatchBlock.mk [⟨tyA, hX⟩] (some hZ)) hZ rfl⟩

/-- C10: the generated `matches` of a bound exception type, given a null
throwable, returns `Err(Error::NullPtr("Invalid null Throwable"))` while
performing zero is-instance-of queries; given a non-null throwable it
performs the query and returns `Ok(Some(cast))` exactly when the
is-instance-of test succeeds and `Ok(None)` otherwise, never a spurious
match. -/
theorem matches_null_and_no_spurious_match (ty : ExcType) (env : EnvState) :
    ExcType.matches ty env JThrowable.null
      = (Except.error (Error.NullPtr "Invalid null Throwable"), 0)
    ∧ ∀ o : ThrowableObj,
        ExcType.matches ty env (JThrowable.obj o)
          = if ty.className ∈ o.instanceOf
            then (Except.ok (some ⟨ty, o⟩), 1)
            else (Except.ok none, 1) :=
  ⟨rfl, fun o => rfl⟩

/-- C2: a call through `jni_call_with_catch!` that induces a pending
exception has that exception cleared before any type test or handler runs:
the matcher chain is evaluated against the cleared environment, the state the
caller observes has pending-exception state false, and the result is the
first matching handler's result in declared order. -/
theorem jni_call_with_catch_clears_and_maps {α : Type} (entries : List (Entry α))
    (dflt : EnvState → Except Error α) (f : JniFn α) (s : EnvState)
    (t : ThrowableObj)
    (h0 : exception_check s = false)
    (hthrow : (f.run s.exc).2 = ⟨true, some t⟩) :
    jni_call_with_catch entries dflt f s
      = (toOutcome (runChain entries dflt ⟨⟨false, none⟩, s.tableCalls + 1⟩
           (JThrowable.obj t)),
         ⟨⟨false, none⟩, s.tableCalls + 1⟩)
    ∧ exception_check (jni_call_with_catch entries dflt f s).2 = false
    ∧ ∀ es₁ es₂ : List (Entry α), ∀ ty : ExcType,
        ∀ hh : Cast → EnvState → Except Error α,
        entries = es₁ ++ ⟨ty, hh⟩ :: es₂ →
        (∀ e ∈ es₁, e.ty.className ∉ t.instanceOf) →
        ty.className ∈ t.instanceOf →
        (jni_call_with_catch entries dflt f s).1
          = toOutcome (hh ⟨ty, t⟩ ⟨⟨false, none⟩, s.tableCalls + 1⟩) := by
  have h0' : s.exc.pending = false := h0
  have hmain : jni_call_with_catch entries dflt f s
      = (toOutcome (runChain entries dflt ⟨⟨false, none⟩, s.tableCalls + 1⟩
           (JThrowable.obj t)),
         (⟨⟨false, none⟩, s.tableCalls + 1⟩ : EnvState)) := by
    simp [jni_call_with_catch, jni_call_no_post_check_ex, exception_check,
      exception_occurred, exception_clear, h0', hthrow]
  refine ⟨hmain, by rw [hmain]; rfl, fun es₁ es₂ ty hh hes hpre hm => ?_⟩
  rw [hmain, hes]
  rw [runChain_prefix_no_match es₁ (⟨ty, hh⟩ :: es₂) dflt _ t hpre]
  rw [runChain_cons_match ⟨ty, hh⟩ es₂ dflt _ t hm]

/-- Witness for C2: a concrete throwing call matched by the first entry of
the chain `[A => 1, B => 2, else => 3]`; the caller observes the first
handler's value and a cleared exception state. -/
theorem jni_call_with_catch_clears_and_maps_witness :
    exception_check sClean = false
    ∧ (fThrow.run sClean.exc).2 = ⟨true, some oAB⟩
    ∧ exception_check (jni_call_with_catch [⟨tyA, hX⟩, ⟨tyB, hY⟩] hZ fThrow sClean).2
        = false
    ∧ (jni_call_with_catch [⟨tyA, hX⟩, ⟨tyB, hY⟩] hZ fThrow sClean).1
        = toOutcome (hX ⟨tyA, oAB⟩ ⟨⟨false, none⟩, sClean.tableCalls + 1⟩) :=
  ⟨rfl, rfl,
    (jni_call_with_catch_clears_and_maps [⟨tyA, hX⟩, ⟨tyB, hY⟩] hZ fThrow sClean
      oAB rfl rfl).2.1,
    (jni_call_with_catch_clears_and_maps [⟨tyA, hX⟩, ⟨tyB, hY⟩] hZ fThrow sClean
      oAB rfl rfl).2.2 [] [⟨tyB, hY⟩] tyA hX rfl (by decide) (by decide)⟩

/-- C6: in `jni_call_with_catch!`, when pending-exception state is detected
after the call but exception retrieval yields nothing, the wrapper takes the
fatal `expect` assertion (a process abort), not an ordinary recoverable error
value. -/
theorem jni_call_with_catch_fatal_on_inconsistency {α : Type}
    (entries : List (Entry α)) (dflt : EnvState → Except Error α)
    (f : JniFn α) (s : EnvState)
    (h0 : exception_check s = false)
    (hbad : (f.run s.exc).2 = ⟨true, none⟩) :
    (jni_call_with_catch entries dflt f s).1
      = Outcome.fatal "Expected an exception after ExceptionCheck" := by
  have h0' : s.exc.pending = false := h0
  simp [jni_call_with_catch, jni_call_no_post_check_ex, exception_check,
    exception_occurred, h0', hbad]

/-- Witness for C6 at a concrete contract-violating call. -/
theorem jni_call_with_catch_fatal_on_inconsistency_witness :
    exception_check sClean = false
    ∧ (fBad.run sClean.exc).2 = ⟨true, none⟩
    ∧ (jni_call_with_catch [⟨tyA, hX⟩] hZ fBad sClean).1
        = Outcome.fatal "Expected an exception after ExceptionCheck" :=
  ⟨rfl, rfl,
    jni_call_with_catch_fatal_on_inconsistency [⟨tyA, hX⟩] hZ fBad sClean rfl rfl⟩

/-- C9: for a block run through `jni_try!`, if pending-exception state is
true after the block completes, the block's own return value is discarded and
the wrapper's result is the matcher's result applied to the
retrieved-and-cleared exception; if pending-exception state is false after
the block, the block's own return value is returned unchanged. -/
theorem jni_try_discards_or_returns {α : Type}
    (block : EnvState → Except Error α × EnvState)
    (entries : List (Entry α)) (dflt : EnvState → Except Error α)
    (s : EnvState) :
    (∀ t : ThrowableObj, (block s).2.exc = ⟨true, some t⟩ →
      jni_try block entries dflt s
        = (toOutcome (runChain entries dflt (exception_clear (block s).2)
             (JThrowable.obj t)),
           exception_clear (block s).2))
    ∧ (exception_check (block s).2 = false →
      jni_try block entries dflt s = (toOutcome (block s).1, (block s).2)) := by
  constructor
  · intro t ht
    simp [jni_try, exception_check, exception_occurred, exception_clear, ht]
  · intro h
    have h' : (block s).2.exc.pending = false := h
    simp [jni_try, exception_check, h']

/-- Witness for C9: a block that returns `Ok 9` while leaving an exception
pending has its value discarded in favour of the first matching handler's
value, and the same block without the exception returns `Ok 9` unchanged. -/
theorem jni_try_discards_or_returns_witness :
    ((blockThrow sClean).2.exc = ⟨true, some oAB⟩
      ∧ jni_try blockThrow [⟨tyA, hX⟩, ⟨tyB, hY⟩] hZ sClean
          = (toOutcome (runChain [⟨tyA, hX⟩, ⟨tyB, hY⟩] hZ
               (exception_clear (blockThrow sClean).2) (JThrowable.obj oAB)),
             exception_clear (blockThrow sClean).2))
    ∧ (exception_check (blockPure sClean).2 = false
      ∧ jni_try blockPure [⟨tyA, hX⟩, ⟨tyB, hY⟩] hZ sClean
          = (toOutcome (blockPure sClean).1, (blockPure sClean).2)) :=
  ⟨⟨rfl,
    (jni_try_discards_or_returns blockThrow [⟨tyA, hX⟩, ⟨tyB, hY⟩] hZ sClean).1
      oAB rfl⟩,
   ⟨rfl,
    (jni_try_discards_or_returns blockPure [⟨tyA, hX⟩, ⟨tyB, hY⟩] hZ sClean).2
      rfl⟩⟩

end Jni
